import Mathlib

/-!
Verification of the triage repository's specification against its code.

The repository ships one source file, `src/app.py` (a Streamlit presentation
layer).  The scoring engine `triage_core` (imported at the top of `app.py`)
is not part of the source tree, so the engine is modelled here from the
specification (each such definition is marked `Modelled from the spec:`).
The parts that do live in `src/app.py` — the module-level statement layout,
the referral output branches and the context-record construction — are
embedded directly from the source.
-/

namespace Triage

/- ================================================================
   Part 1.  Python logical-line indentation model (src/app.py layout)
   ================================================================ -/

/-- One logical line of a Python module: the physical line number where it
starts, its leading-space count, and whether it opens a block (ends in `:`).
Blank lines, comment-only lines and bracket continuations emit no token. -/
structure PyLine where
  lineNo : Nat
  indent : Nat
  opensBlock : Bool
deriving DecidableEq, Repr

/-- CPython dedent handling: pop indentation levels until the new indent is
found on the stack; if it is absent the tokenizer reports an error. -/
def dedentTo (i : Nat) : List Nat → Option (List Nat)
  | [] => none
  | top :: s => if top = i then some (top :: s)
                else if i < top then dedentTo i s
                else none

/-- CPython's indentation rule over logical lines: after a block-opening line
the next logical line must be strictly more indented (pushed on the stack);
otherwise the line's indent must dedent to a level already on the stack —
a deeper indent that was not announced by a block opener is an
IndentationError ("unexpected indent"). -/
def indentOk : List Nat → Bool → List PyLine → Bool
  | _, expect, [] => !expect
  | stack, expect, l :: rest =>
    if expect then
      match stack with
      | [] => false
      | top :: _ =>
        if top < l.indent then indentOk (l.indent :: stack) l.opensBlock rest
        else false
    else
      match dedentTo l.indent stack with
      | some s => indentOk s l.opensBlock rest
      | none => false

set_option maxHeartbeats 1000000 in
/-- The logical lines of `src/app.py`, in order: first physical line number,
indentation, and whether the logical line ends with `:`.  Multi-line
bracketed statements are one logical line at the indent of their first
physical line. -/
def appLogicalLines : List PyLine := [
  ⟨1, 0, false⟩,     -- import streamlit as st
  ⟨2, 0, false⟩,     -- from triage_core import ( ... )
  ⟨12, 0, false⟩,    -- @st.cache_resource
  ⟨13, 0, true⟩,     -- def init_engine():
  ⟨14, 4, false⟩,    --     initialise_drug_config(tripsit_path="drugs.json")
  ⟨15, 4, false⟩,    --     load_tripsit_combos("combos.json")
  ⟨16, 4, false⟩,    --     return True
  ⟨19, 0, false⟩,    -- init_engine()
  ⟨24, 0, true⟩,     -- if "triage_result" not in st.session_state:
  ⟨25, 4, false⟩,    --     st.session_state.triage_result = None
  ⟨26, 4, false⟩,    --     st.session_state.triage_context = None
  ⟨27, 4, false⟩,    --     st.session_state.triage_text = ""
  ⟨32, 0, false⟩,    -- st.title(...)
  ⟨34, 0, false⟩,    -- st.markdown( """...""" )
  ⟨51, 0, false⟩,    -- drugs_text = st.text_area( ... )
  ⟨57, 0, false⟩,    -- st.subheader("Client context")
  ⟨59, 0, false⟩,    -- col1, col2 = st.columns(2)
  ⟨61, 0, true⟩,     -- with col1:
  ⟨62, 4, false⟩,    --     age = st.number_input("Age", ...)
  ⟨63, 4, false⟩,    --     weight_kg = st.number_input( ... )
  ⟨66, 4, false⟩,    --     height_cm = st.number_input( ... )
  ⟨70, 0, true⟩,     -- with col2:
  ⟨71, 4, false⟩,    --     sex = st.selectbox( ... )
  ⟨75, 4, false⟩,    --     opioid_dependent = st.checkbox( ... )
  ⟨78, 4, false⟩,    --     homeless = st.checkbox(...)
  ⟨79, 4, false⟩,    --     recent_overdose = st.checkbox(...)
  ⟨80, 4, false⟩,    --     severe_mental_health = st.checkbox(...)
  ⟨81, 4, false⟩,    --     polysubstance_history = st.checkbox(...)
  ⟨83, 0, false⟩,    -- context = { ... }
  ⟨99, 0, true⟩,     -- if st.button("Run triage") and drugs_text.strip():
  ⟨100, 4, false⟩,   --     result = triage_from_text_and_context(drugs_text, context)
  ⟨103, 4, false⟩,   --     st.session_state.triage_result = result
  ⟨104, 4, false⟩,   --     st.session_state.triage_context = context
  ⟨105, 4, false⟩,   --     st.session_state.triage_text = drugs_text
  ⟨111, 0, false⟩,   -- result = st.session_state.triage_result
  ⟨112, 0, false⟩,   -- context_for_display = st.session_state.triage_context
  ⟨114, 0, true⟩,    -- if result is not None:
  ⟨116, 4, false⟩,   --     st.markdown("## Triage result")
  ⟨118, 4, false⟩,   --     st.write(f"**Detected drugs:** ...")
  ⟨120, 4, true⟩,    --     if result["unknown_drugs"]:
  ⟨121, 8, false⟩,   --         st.write(f"**Unknown drugs (flagged):** ...")
  ⟨123, 4, false⟩,   --     st.write(f"**Drug score ...** {result['drug_score']}")
  ⟨124, 4, false⟩,   --     st.write(f"- Category synergy component: ...")
  ⟨125, 4, false⟩,   --     st.write(f"- TripSit combo component: ...")
  ⟨126, 4, false⟩,   --     st.write(f"**Context score ...** ...")
  ⟨127, 4, false⟩,   --     st.write(f"**TOTAL triage score ...** ...")
  ⟨129, 4, false⟩,   --     st.caption( ... )
  ⟨134, 4, false⟩,   --     st.markdown(f"### Acute risk branch ...")
  ⟨136, 4, false⟩,   --     st.markdown("**Recommended interventions ...**")
  ⟨137, 4, true⟩,    --     for item in result["interventions"]:
  ⟨138, 8, false⟩,   --         st.markdown(f"- {item}")
  ⟨140, 4, false⟩,   --     st.markdown("### Alerts and notes")
  ⟨141, 4, true⟩,    --     for a in result["alerts"]:
  ⟨142, 8, false⟩,   --         st.markdown(f"- {a}")
  ⟨144, 4, false⟩,   --     st.markdown("### Referral recommendation")
  ⟨145, 4, false⟩,   --     ref = result["referral"]
  ⟨146, 4, false⟩,   --     st.write(f"**Refer:** ...")
  ⟨147, 4, false⟩,   --     st.write(f"**Reason:** ...")
  ⟨148, 4, false⟩,   --     st.write(f"**Suggested service:** ...")
  ⟨153, 4, true⟩,    --     if str(ref.get("refer", "")).strip().lower().startswith("y"):
  ⟨155, 8, false⟩,   --         st.markdown("### Provisional booking / referral")
  ⟨157, 8, false⟩,   --         st.info( ... )
  ⟨164, 8, false⟩,   --         mode = st.radio( ... )
  ⟨176, 8, true⟩,    --         if mode == "Generate referral summary text":
  ⟨178, 12, false⟩,  --             lines = []
  ⟨179, 12, false⟩,  --             lines.append("Referral reason:")
  ⟨180, 12, false⟩,  --             lines.append(ref["reason"])
  ⟨181, 12, false⟩,  --             lines.append("")
  ⟨182, 12, false⟩,  --             lines.append(f"Suggested service: ...")
  ⟨183, 12, false⟩,  --             lines.append("")
  ⟨184, 12, false⟩,  --             lines.append( "Detected substances: " + ... )
  ⟨188, 12, false⟩,  --             lines.append( f"Triage score: ..." )
  ⟨191, 12, false⟩,  --             lines.append("")
  ⟨193, 12, false⟩,  --             lines.append("Context snapshot: " + (", ".join(ctx_bits) ...))
  ⟨195, 12, false⟩,  --             st.text_area( ... )
  ⟨204, 8, true⟩,    --         else:
  ⟨205, 12, false⟩,  --             subject = f"Drug & context triage referral ..."
  ⟨207, 12, false⟩,  --             ctx_bits = [ ... ]
  ⟨214, 12, true⟩,   --             if context_for_display.get("sex"):
  ⟨215, 16, false⟩,  --                 ctx_bits.append(f"sex=...")
  ⟨217, 12, false⟩,  --             ctx_line = ", ".join(ctx_bits) if ctx_bits else ...
  ⟨220, 0, true⟩,    -- if context_for_display.get("sex"):
  ⟨221, 4, false⟩,   --     ctx_bits.append(f"sex=...")
  ⟨223, 12, false⟩,  --             ctx_line = ", ".join(ctx_bits) if ctx_bits else ...
  ⟨225, 12, false⟩,  --             body_lines = [ ... ]
  ⟨250, 12, false⟩,  --             body_text = "\n".join(body_lines)
  ⟨252, 12, false⟩,  --             st.write("**Email template ...**")
  ⟨253, 12, false⟩,  --             st.text_input("Subject", ...)
  ⟨254, 12, false⟩]  --             st.text_area("Body", ...)

/- ================================================================
   Part 2.  The scoring engine (`triage_core`), modelled from the spec
   ================================================================ -/

/-- Weights are non-negative numerics in the spec; we embed them as ℚ. -/
abbrev Weight := ℚ

/-- Modelled from the spec: a Drug Catalog entry (`triage_core` is not in the
source tree): canonical name, alias strings, pharmacological categories and a
base acute-risk weight. -/
structure CatalogEntry where
  name : String
  aliases : List String
  categories : List String
  baseWeight : Weight

/-- Modelled from the spec: a Combo Table entry: set of canonical member
names (size ≥ 2 as a data invariant), severity weight and an optional note. -/
structure ComboEntry where
  members : Finset String
  severity : Weight
  note : String

/-- Character-list lowercasing (kernel-reducible stand-in for `str.lower`). -/
def lowerStr (s : String) : String :=
  String.mk (s.data.map Char.toLower)

/-- Python's `str.startswith`, over character lists. -/
def strStartsWith (s pre : String) : Bool :=
  pre.data.isPrefixOf s.data

/-- Modelled from the spec: text normalization keeps alphanumerics and
internal hyphens, and turns every other character into a separator. -/
def normalizeChar (c : Char) : Char :=
  if c.isAlphanum || c = '-' || c = ' ' then c else ' '

/-- Split a character stream at spaces, accumulating the current token. -/
def splitChars (acc : List Char) : List Char → List String
  | [] => if acc.isEmpty then [] else [String.mk acc.reverse]
  | c :: cs =>
    if c = ' ' then
      if acc.isEmpty then splitChars [] cs
      else String.mk acc.reverse :: splitChars [] cs
    else splitChars (c :: acc) cs

/-- Modelled from the spec: tokenize free text — normalize punctuation to
separators and split into tokens (case preserved as typed; matching
lowercases). -/
def tokenize (text : String) : List String :=
  splitChars [] (text.data.map normalizeChar)

/-- Modelled from the spec: connector/stop-words removed between substance
mentions. -/
def connectors : List String := ["and", "with", "plus", "or", "then", "a", "the", "some", "of"]

def isConnector (t : String) : Bool :=
  connectors.contains (lowerStr t)

/-- Modelled from the spec: case-insensitive, alias-aware matching of a
phrase against one catalog entry (canonical name or any alias). -/
def entryMatches (phrase : String) (e : CatalogEntry) : Bool :=
  lowerStr phrase == lowerStr e.name
    || e.aliases.any (fun a => lowerStr a == lowerStr phrase)

/-- Modelled from the spec: `lookup(token) -> CatalogEntry | not-found`;
an alias resolves to the first catalog entry owning it. -/
def lookupPhrase (cat : List CatalogEntry) (phrase : String) : Option CatalogEntry :=
  cat.find? (entryMatches phrase)

/-- Join tokens with single spaces (contiguous-phrase reconstruction). -/
def joinTokens : List String → String
  | [] => ""
  | [t] => t
  | t :: u :: rest => t ++ " " ++ joinTokens (u :: rest)

/-- The phrase formed by the first `k` tokens. -/
def phraseOf (toks : List String) (k : Nat) : String :=
  joinTokens (toks.take k)

/-- Modelled from the spec: greedy longest-phrase matching — try phrase
lengths from `m` down to 1 against the catalog. -/
def tryLens (cat : List CatalogEntry) (toks : List String) : Nat → Option (Nat × String)
  | 0 => none
  | k + 1 =>
    match lookupPhrase cat (phraseOf toks (k + 1)) with
    | some e => some (k + 1, e.name)
    | none => tryLens cat toks k

/-- Longest catalog match starting at the head of the token stream. -/
def firstMatch (cat : List CatalogEntry) (toks : List String) : Option (Nat × String) :=
  tryLens cat toks toks.length

/-- Modelled from the spec: the extractor core — greedily match longest alias
phrases first, fall back over the remaining spans, drop connectors, and
report unmatched tokens verbatim as unknown substances.  `fuel` bounds the
recursion by the token count. -/
def extractAux (cat : List CatalogEntry) : Nat → List String → List String × List String
  | 0, _ => ([], [])
  | _, [] => ([], [])
  | fuel + 1, t :: rest =>
    match firstMatch cat (t :: rest) with
    | some kn =>
      let r := extractAux cat fuel ((t :: rest).drop (max kn.1 1))
      (kn.2 :: r.1, r.2)
    | none =>
      let r := extractAux cat fuel rest
      if isConnector t then r else (r.1, t :: r.2)

/-- Modelled from the spec: extraction — (recognized canonical names,
unknown substance strings), each de-duplicated. -/
def extract_substances (cat : List CatalogEntry) (text : String) :
    List String × List String :=
  let toks := tokenize text
  let r := extractAux cat toks.length toks
  (r.1.dedup, r.2.dedup)

/-- Catalog lookup by canonical name (scoring-side lookup). -/
def entryByName (cat : List CatalogEntry) (n : String) : Option CatalogEntry :=
  cat.find? (fun e => e.name == n)

/-- Base acute-risk weight of a recognized canonical name (0 if absent). -/
def baseWeightOf (cat : List CatalogEntry) (n : String) : Weight :=
  match entryByName cat n with
  | some e => e.baseWeight
  | none => 0

/-- Modelled from the spec: base component — sum of base acute-risk weights
of the recognized substances. -/
def baseComponent (cat : List CatalogEntry) (names : Finset String) : Weight :=
  ∑ n in names, baseWeightOf cat n

/-- Categories of one recognized canonical name. -/
def categoriesOf (cat : List CatalogEntry) (n : String) : Finset String :=
  match entryByName cat n with
  | some e => e.categories.toFinset
  | none => ∅

/-- Modelled from the spec: `all_categories_for(names)` — the set of
pharmacological categories present among the recognized substances. -/
def categoriesPresent (cat : List CatalogEntry) (names : Finset String) : Finset String :=
  names.biUnion (categoriesOf cat)

/-- The fixed category-pair interaction weights, keyed by an ordered pair. -/
def pairKeyWeight (key : String × String) : Weight :=
  if key = ("depressant", "opioid") then 4
  else if key = ("dissociative", "opioid") then 3
  else if key = ("depressant", "dissociative") then 3
  else if key = ("opioid", "stimulant") then 2
  else if key = ("depressant", "stimulant") then 2
  else if key.1 ≠ key.2 then 1
  else 0

/-- Modelled from the spec: the fixed, symmetric category-pair interaction
table (placeholder weights, per the spec's design note; symmetric by
construction and non-negative). -/
def categoryPairWeight (a b : String) : Weight :=
  if a ≤ b then pairKeyWeight (a, b) else pairKeyWeight (b, a)

/-- The unordered pairs of distinct categories (represented as ordered
pairs `(a, b)` with `a < b`) realized by two distinct recognized
substances: one substance carries `a`, a different substance carries `b`.
A pair occurring only inside a single substance's own multiple categories
is not realized — the spec's "no self-pairing within one substance's own
multiple categories unless two distinct substances share that pairing". -/
def realizedCategoryPairs (cat : List CatalogEntry) (names : Finset String) :
    Finset (String × String) :=
  ((names ×ˢ names).filter (fun q => q.1 ≠ q.2)).biUnion
    (fun q => (categoriesOf cat q.1 ×ˢ categoriesOf cat q.2).filter (fun p => p.1 < p.2))

/-- Modelled from the spec: synergy component — one fixed interaction weight
per unordered pair of distinct categories present, counted only when two
distinct substances realize the pairing (a single multi-category substance
contributes no synergy). -/
def synergyComponent (cat : List CatalogEntry) (names : Finset String) : Weight :=
  ∑ p in realizedCategoryPairs cat names, categoryPairWeight p.1 p.2

/-- A combo fires when its full member set is contained in the recognized
set, regardless of extra substances present. -/
def comboMatches (names : Finset String) (c : ComboEntry) : Bool :=
  decide (c.members ⊆ names)

/-- Stable descending insertion by severity: an entry moves past strictly
heavier entries only, so equal-severity entries keep definition order. -/
def insertDesc (c : ComboEntry) : List ComboEntry → List ComboEntry
  | [] => [c]
  | d :: ds => if c.severity < d.severity then d :: insertDesc c ds else c :: d :: ds

/-- Stable sort by descending severity weight. -/
def sortBySeverityDesc : List ComboEntry → List ComboEntry
  | [] => []
  | c :: cs => insertDesc c (sortBySeverityDesc cs)

/-- Modelled from the spec: `matching_combos(recognized_names)` — every combo
whose member set is a subset of the recognized names, ordered by descending
severity weight, ties broken by definition order. -/
def matching_combos (combos : List ComboEntry) (names : Finset String) : List ComboEntry :=
  sortBySeverityDesc (combos.filter (comboMatches names))

/-- Modelled from the spec: combo component — additive sum of the severity
weights of every matching combo entry. -/
def comboComponent (combos : List ComboEntry) (names : Finset String) : Weight :=
  ((matching_combos combos names).map (fun c => c.severity)).sum

/-- Modelled from the spec: drug score = base + synergy + combo. -/
def drugScore (cat : List CatalogEntry) (combos : List ComboEntry)
    (names : Finset String) : Weight :=
  baseComponent cat names + synergyComponent cat names + comboComponent combos names

/-- Context Record: person-level snapshot (fields as built by
`src/app.py` lines 83–93); booleans default false, optional fields default
`none`. -/
structure ContextRecord where
  age : Option Int := none
  weight_kg : Option ℚ := none
  height_cm : Option ℚ := none
  sex : Option String := none
  opioid_dependent : Bool := false
  homeless : Bool := false
  recent_overdose : Bool := false
  severe_mental_health : Bool := false
  polysubstance_history : Bool := false

/-- Modelled from the spec: context score — deterministic weighted sum over
the five boolean vulnerability flags (fixed placeholder weights); absent
optional fields contribute zero, age/weight/height are informational only. -/
def contextScore (ctx : ContextRecord) : Weight :=
  (if ctx.opioid_dependent then 2 else 0)
    + (if ctx.homeless then 1 else 0)
    + (if ctx.recent_overdose then 3 else 0)
    + (if ctx.severe_mental_health then 1 else 0)
    + (if ctx.polysubstance_history then 2 else 0)

/-- The ordered, finite set of risk branches. -/
inductive Branch
  | low
  | moderate
  | high
  | critical
deriving DecidableEq, Repr

/-- Severity rank of a branch (total order on branches). -/
def Branch.rank : Branch → Nat
  | .low => 0
  | .moderate => 1
  | .high => 2
  | .critical => 3

/-- Display label of a branch. -/
def Branch.label : Branch → String
  | .low => "Low"
  | .moderate => "Moderate"
  | .high => "High"
  | .critical => "Critical"

/-- Modelled from the spec: branch classifier over fixed ascending,
non-overlapping score bands (lower bound inclusive, upper exclusive, top
band open-ended; placeholder thresholds per the spec's design note). -/
def classifyBranch (total : Weight) : Branch :=
  if total < 4 then .low
  else if total < 8 then .moderate
  else if total < 12 then .high
  else .critical

/-- Modelled from the spec: static branch → interventions mapping. -/
def interventionsFor : Branch → List String
  | .low => ["Provide harm-reduction information."]
  | .moderate => ["Provide harm-reduction information.", "Offer brief intervention and follow-up."]
  | .high => ["Arrange same-week clinical review.", "Supply take-home naloxone where opioids involved."]
  | .critical => ["Arrange urgent clinical assessment.", "Supply take-home naloxone where opioids involved.", "Consider crisis pathway."]

/-- Modelled from the spec: branch → referral priority mapping (monotonic
with branch severity). -/
def priorityFor : Branch → String
  | .low => "routine"
  | .moderate => "routine"
  | .high => "urgent"
  | .critical => "emergency"

/-- Modelled from the spec: branch → suggested service mapping. -/
def serviceFor : Branch → String
  | .low => "Community drug and alcohol service"
  | .moderate => "Community drug and alcohol service"
  | .high => "Specialist substance misuse team"
  | .critical => "Urgent care / crisis substance misuse team"

/-- Referral decision record (fields read by `src/app.py` lines 146–148). -/
structure Referral where
  refer : String
  priority : String
  reason : String
  suggested_service : String

/-- The minimum branch rank at which referral is always recommended. -/
def referralThresholdRank : Nat := Branch.rank .high

/-- Modelled from the spec: alerts are additive and branch-independent —
unknown substance present, dangerous combo matched, recent overdose flag. -/
def alertsFor (unknown : List String) (matched : List ComboEntry)
    (ctx : ContextRecord) : List String :=
  (if unknown.isEmpty then [] else ["Unrecognised substance reported - verify identity and dose."])
    ++ (if matched.isEmpty then [] else ["Known dangerous combination detected."])
    ++ (if ctx.recent_overdose then ["Recent non-fatal overdose on record."] else [])

/-- Modelled from the spec: referral decision — refer when the branch is at
or above the threshold branch, or a qualifying high-risk flag is set
(recent overdose, matched combo); priority and service derive from the
branch; reason is a short templated string. -/
def referralFor (br : Branch) (matched : List ComboEntry) (ctx : ContextRecord) : Referral :=
  let flagged := ctx.recent_overdose || !matched.isEmpty
  let yes := decide (referralThresholdRank ≤ br.rank) || flagged
  { refer := if yes then "Yes" else "No"
    priority := priorityFor br
    reason :=
      if yes then
        "Acute risk branch " ++ br.label
          ++ (if flagged then " with high-risk flags." else ".")
      else "Below referral threshold."
    suggested_service := serviceFor br }

/-- Triage Result: the output record, with the fields the presentation layer
reads (`src/app.py` lines 118–148). -/
structure TriageResult where
  detected_drugs : List String
  unknown_drugs : List String
  drug_score : Weight
  base_component : Weight
  synergy_component : Weight
  tripsit_combo_component : Weight
  context_score : Weight
  total_score : Weight
  branch : String
  interventions : List String
  alerts : List String
  referral : Referral

/-- Modelled from the spec: the engine entry point
`triage(text, context) -> TriageResult`, pure and synchronous, over the
pre-loaded catalog and combo table. -/
def triage_from_text_and_context (cat : List CatalogEntry) (combos : List ComboEntry)
    (text : String) (ctx : ContextRecord) : TriageResult :=
  let ext := extract_substances cat text
  let names := ext.1.toFinset
  let total := drugScore cat combos names + contextScore ctx
  let br := classifyBranch total
  { detected_drugs := ext.1
    unknown_drugs := ext.2
    drug_score := drugScore cat combos names
    base_component := baseComponent cat names
    synergy_component := synergyComponent cat names
    tripsit_combo_component := comboComponent combos names
    context_score := contextScore ctx
    total_score := total
    branch := br.label
    interventions := interventionsFor br
    alerts := alertsFor ext.2 (matching_combos combos names) ctx
    referral := referralFor br (matching_combos combos names) ctx }

/-- Values stored under the string keys of the result dictionary the
presentation layer indexes into. -/
inductive JVal
  | s : String → JVal
  | q : ℚ → JVal
  | strs : List String → JVal
  | dict : List (String × JVal) → JVal

/-- The result record as the keyed dictionary read by `src/app.py`
(lines 118–148): every field under its string key. -/
def TriageResult.toDict (r : TriageResult) : List (String × JVal) :=
  [("detected_drugs", JVal.strs r.detected_drugs),
   ("unknown_drugs", JVal.strs r.unknown_drugs),
   ("drug_score", JVal.q r.drug_score),
   ("base_component", JVal.q r.base_component),
   ("synergy_component", JVal.q r.synergy_component),
   ("tripsit_combo_component", JVal.q r.tripsit_combo_component),
   ("context_score", JVal.q r.context_score),
   ("total_score", JVal.q r.total_score),
   ("branch", JVal.s r.branch),
   ("interventions", JVal.strs r.interventions),
   ("alerts", JVal.strs r.alerts),
   ("referral", JVal.dict
      [("refer", JVal.s r.referral.refer),
       ("priority", JVal.s r.referral.priority),
       ("reason", JVal.s r.referral.reason),
       ("suggested_service", JVal.s r.referral.suggested_service)])]

/-- The keys the presentation layer reads from a triage result. -/
def requiredKeys : List String :=
  ["detected_drugs", "unknown_drugs", "drug_score", "synergy_component",
   "tripsit_combo_component", "context_score", "total_score", "branch",
   "interventions", "alerts", "referral"]

/-- A small fixture catalog used to instantiate the universally quantified
claims at concrete inputs. -/
def demoCatalog : List CatalogEntry :=
  [⟨"heroin", ["heroin", "diamorphine", "smack"], ["opioid"], 4⟩,
   ⟨"alcohol", ["alcohol", "booze", "ethanol"], ["depressant"], 2⟩,
   ⟨"pregabalin", ["pregabalin", "lyrica"], ["depressant"], 2⟩,
   ⟨"cocaine", ["cocaine", "coke"], ["stimulant"], 3⟩,
   ⟨"ketamine", ["ketamine", "ket"], ["dissociative"], 2⟩,
   ⟨"paracetamol", ["paracetamol", "acetaminophen"], ["analgesic"], 1⟩]

/-- A small fixture combo table for the same purpose. -/
def demoCombos : List ComboEntry :=
  [⟨{"heroin", "alcohol"}, 5, "opioid with depressant"⟩,
   ⟨{"heroin", "cocaine"}, 4, "speedball"⟩,
   ⟨{"cocaine", "alcohol"}, 3, "cocaethylene"⟩]

/-- The all-default context record (every flag false, optionals none). -/
def defaultContext : ContextRecord := {}

/- ================================================================
   Part 3.  The application script (src/app.py) around the engine
   ================================================================ -/

/-- The configuration source the engine loads at startup
(`drugs.json` / `combos.json`): present and well-formed, missing, or
malformed. -/
inductive ConfigSource
  | ok (cat : List CatalogEntry) (combos : List ComboEntry)
  | missing
  | malformed

/-- Modelled from the spec: `initialise_drug_config` / `load_tripsit_combos`
(bodies not in the source tree) — loading fails fast on a missing or
malformed configuration source. -/
def loadConfig : ConfigSource → Except String (List CatalogEntry × List ComboEntry)
  | .ok cat combos => .ok (cat, combos)
  | .missing => .error "ConfigurationError: source missing"
  | .malformed => .error "ConfigurationError: source malformed"

/-- Observable events of one script run: the one-time engine
initialisation (`init_engine()`, line 19) and a triage call (line 100). -/
inductive AppEvent
  | engineInit
  | triageCall
deriving DecidableEq, Repr

/-- Python truthiness of `drugs_text.strip()`: true iff some character of
the text is not whitespace. -/
def textHasContent (text : String) : Bool :=
  text.data.any (fun c => !c.isWhitespace)

/-- One run of the module-level script of `src/app.py`: `init_engine()` runs
first (line 19, cached so it completes exactly once per process); a failed
load propagates and nothing further runs; otherwise the triage call happens
only behind the button-and-nonblank-text guard (line 99).  Returns the event
trace and the triage result, if any. -/
def runApp (src : ConfigSource) (buttonClicked : Bool) (text : String)
    (ctx : ContextRecord) : Except String (List AppEvent × Option TriageResult) :=
  match loadConfig src with
  | .error e => .error e
  | .ok cc =>
    if buttonClicked && textHasContent text then
      .ok ([.engineInit, .triageCall],
           some (triage_from_text_and_context cc.1 cc.2 text ctx))
    else
      .ok ([.engineInit], none)

/-- Python `", ".join(...)`. -/
def commaJoin : List String → String
  | [] => ""
  | [s] => s
  | s :: t :: rest => s ++ ", " ++ commaJoin (t :: rest)

/-- `", ".join(xs) or fallback` — Python `or` takes the fallback on an empty
join. -/
def joinOr (xs : List String) (fallback : String) : String :=
  if commaJoin xs = "" then fallback else commaJoin xs

/-- The `ctx_bits` list as the email branch builds it (`src/app.py`
lines 207–215): every context item that is neither None nor False except
sex, then sex appended when recorded. -/
def contextBits (c : ContextRecord) : List String :=
  ((match c.age with | some a => ["age=" ++ toString a] | none => [])
    ++ (match c.weight_kg with | some w => ["weight_kg=" ++ toString w] | none => [])
    ++ (match c.height_cm with | some h => ["height_cm=" ++ toString h] | none => [])
    ++ (if c.opioid_dependent then ["opioid_dependent=True"] else [])
    ++ (if c.homeless then ["homeless=True"] else [])
    ++ (if c.recent_overdose then ["recent_overdose=True"] else [])
    ++ (if c.severe_mental_health then ["severe_mental_health=True"] else [])
    ++ (if c.polysubstance_history then ["polysubstance_history=True"] else []))
    ++ (match c.sex with | some s => ["sex=" ++ s] | none => [])

/-- The two referral output formats of the radio widget (line 164). -/
inductive RefMode
  | summaryText
  | emailTemplate
deriving DecidableEq

/-- The summary-text branch (`src/app.py` lines 178–199): the built lines,
where line 193 reads the variable `ctx_bits` from the surrounding scope —
a read of an unbound name is Python's NameError. -/
def summaryLines (r : TriageResult) (scopeCtxBits : Option (List String)) :
    Except String (List String) :=
  let lines :=
    ["Referral reason:",
     r.referral.reason,
     "",
     "Suggested service: " ++ r.referral.suggested_service,
     "",
     "Detected substances: " ++ joinOr r.detected_drugs "None recorded",
     "Triage score: " ++ toString r.total_score ++ " (" ++ r.branch ++ ")",
     ""]
  match scopeCtxBits with
  | none => .error "NameError: name ctx_bits is not defined"
  | some ctxBits =>
    .ok (lines ++
      ["Context snapshot: " ++ (if ctxBits.isEmpty then "Not recorded" else commaJoin ctxBits)])

/-- The email-template branch (`src/app.py` lines 205–250): assigns
`ctx_bits` itself (line 207) before using it, so it never reads an unbound
name. -/
def emailBodyLines (r : TriageResult) (ctxd : ContextRecord) : List String :=
  let ctxBits := contextBits ctxd
  let ctxLine := if ctxBits.isEmpty then "Context details not recorded." else commaJoin ctxBits
  ["Dear team,",
   "",
   "Please find below a brief summary generated from the drug & context triage tool.",
   "",
   "Suggested service: " ++ r.referral.suggested_service,
   "Referral priority: " ++ r.referral.priority,
   "",
   "Reason for referral:",
   r.referral.reason,
   "",
   "Detected substances:",
   joinOr r.detected_drugs "None recorded",
   "",
   "Triage score: " ++ toString r.total_score ++ " (" ++ r.branch ++ ")",
   "",
   "Key contextual factors:",
   ctxLine,
   "",
   "This text is intended to be copied into your usual referral system.",
   "",
   "Best wishes,",
   "________________________"]

/-- The referral output section (`src/app.py` lines 164–254): dispatch on
the radio mode.  `scopeCtxBits` is the binding of `ctx_bits` in the module
scope when the section starts — in a fresh script run there is none. -/
def referralSection (mode : RefMode) (r : TriageResult) (ctxd : ContextRecord)
    (scopeCtxBits : Option (List String)) : Except String (List String) :=
  match mode with
  | .summaryText => summaryLines r scopeCtxBits
  | .emailTemplate => .ok (emailBodyLines r ctxd)

/-- The raw widget values of the context form (`src/app.py` lines 62–81). -/
structure WidgetState where
  age : Nat
  weight_kg : ℚ
  height_cm : ℚ
  sex : String
  opioid_dependent : Bool
  homeless : Bool
  recent_overdose : Bool
  severe_mental_health : Bool
  polysubstance_history : Bool

/-- The widget defaults: each number input starts at its minimum
(`age` 0, `weight_kg` 20.0, `height_cm` 120.0), the selectbox at its first
option, every checkbox unticked. -/
def defaultWidgets : WidgetState :=
  { age := 0
    weight_kg := 20
    height_cm := 120
    sex := "Prefer not to record"
    opioid_dependent := false
    homeless := false
    recent_overdose := false
    severe_mental_health := false
    polysubstance_history := false }

/-- The context dict construction (`src/app.py` lines 83–93):
`int(age) if age else None` (0 is falsy), likewise weight and height;
`sex.lower() if sex and not sex.startswith("Prefer") else None`; the five
flags pass through. -/
def buildContext (w : WidgetState) : ContextRecord :=
  { age := if w.age = 0 then none else some (Int.ofNat w.age)
    weight_kg := if w.weight_kg = 0 then none else some w.weight_kg
    height_cm := if w.height_cm = 0 then none else some w.height_cm
    sex :=
      if w.sex ≠ "" ∧ ¬ (strStartsWith w.sex "Prefer" = true) then some (lowerStr w.sex)
      else none
    opioid_dependent := w.opioid_dependent
    homeless := w.homeless
    recent_overdose := w.recent_overdose
    severe_mental_health := w.severe_mental_health
    polysubstance_history := w.polysubstance_history }

/- ================================================================
   Part 4.  Helper lemmas
   ================================================================ -/

theorem triage_detected_eq (cat : List CatalogEntry) (combos : List ComboEntry)
    (text : String) (ctx : ContextRecord) :
    (triage_from_text_and_context cat combos text ctx).detected_drugs
      = (extract_substances cat text).1 := rfl

theorem triage_unknown_eq (cat : List CatalogEntry) (combos : List ComboEntry)
    (text : String) (ctx : ContextRecord) :
    (triage_from_text_and_context cat combos text ctx).unknown_drugs
      = (extract_substances cat text).2 := rfl

theorem extract_substances_fst (cat : List CatalogEntry) (text : String) :
    (extract_substances cat text).1
      = (extractAux cat (tokenize text).length (tokenize text)).1.dedup := rfl

theorem extract_substances_snd (cat : List CatalogEntry) (text : String) :
    (extract_substances cat text).2
      = (extractAux cat (tokenize text).length (tokenize text)).2.dedup := rfl

theorem insertDesc_perm (c : ComboEntry) (l : List ComboEntry) :
    List.Perm (insertDesc c l) (c :: l) := by
  induction l with
  | nil => exact List.Perm.refl _
  | cons d ds ih =>
    by_cases hcd : c.severity < d.severity
    · simp only [insertDesc, if_pos hcd]
      exact (ih.cons d).trans (List.Perm.swap c d ds)
    · simp only [insertDesc, if_neg hcd]
      exact List.Perm.refl _

theorem sortDesc_perm (l : List ComboEntry) : List.Perm (sortBySeverityDesc l) l := by
  induction l with
  | nil => exact List.Perm.refl _
  | cons c cs ih => exact (insertDesc_perm c (sortBySeverityDesc cs)).trans (ih.cons c)

theorem insertDesc_sorted (c : ComboEntry) (l : List ComboEntry)
    (h : l.Pairwise (fun a b => b.severity ≤ a.severity)) :
    (insertDesc c l).Pairwise (fun a b => b.severity ≤ a.severity) := by
  induction l with
  | nil => simp [insertDesc]
  | cons d ds ih =>
    rcases List.pairwise_cons.mp h with ⟨hd, hds⟩
    by_cases hcd : c.severity < d.severity
    · simp only [insertDesc, if_pos hcd]
      refine List.pairwise_cons.mpr ⟨?_, ih hds⟩
      intro b hb
      rcases List.mem_cons.mp ((insertDesc_perm c ds).mem_iff.mp hb) with rfl | hbds
      · exact le_of_lt hcd
      · exact hd b hbds
    · simp only [insertDesc, if_neg hcd]
      have hdc : d.severity ≤ c.severity := not_lt.mp hcd
      refine List.pairwise_cons.mpr ⟨?_, h⟩
      intro b hb
      rcases List.mem_cons.mp hb with rfl | hbds
      · exact hdc
      · exact le_trans (hd b hbds) hdc

theorem sortDesc_sorted (l : List ComboEntry) :
    (sortBySeverityDesc l).Pairwise (fun a b => b.severity ≤ a.severity) := by
  induction l with
  | nil => simp [sortBySeverityDesc]
  | cons c cs ih => exact insertDesc_sorted c (sortBySeverityDesc cs) ih

theorem insertDesc_filter (c : ComboEntry) (l : List ComboEntry) (w : ℚ) :
    (insertDesc c l).filter (fun d => d.severity == w)
      = if c.severity = w
        then c :: l.filter (fun d => d.severity == w)
        else l.filter (fun d => d.severity == w) := by
  induction l with
  | nil =>
    by_cases hc : c.severity = w <;> simp [insertDesc, hc]
  | cons d ds ih =>
    by_cases hcd : c.severity < d.severity
    · simp only [insertDesc, if_pos hcd]
      by_cases hc : c.severity = w
      · have hdw : ¬ d.severity = w := fun hdw => absurd hcd (by rw [hc, hdw]; exact lt_irrefl w)
        simp [List.filter_cons, hdw, hc, ih]
      · simp [List.filter_cons, hc, ih]
    · simp only [insertDesc, if_neg hcd]
      by_cases hc : c.severity = w <;> simp [List.filter_cons, hc]

theorem sortDesc_filter (l : List ComboEntry) (w : ℚ) :
    (sortBySeverityDesc l).filter (fun d => d.severity == w)
      = l.filter (fun d => d.severity == w) := by
  induction l with
  | nil => rfl
  | cons c cs ih =>
    show (insertDesc c (sortBySeverityDesc cs)).filter (fun d => d.severity == w) = _
    rw [insertDesc_filter]
    by_cases hc : c.severity = w
    · rw [if_pos hc, ih, List.filter_cons, if_pos (by simp [hc])]
    · rw [if_neg hc, ih, List.filter_cons, if_neg (by simp [hc])]

theorem comboComponent_filter (combos : List ComboEntry) (names : Finset String) :
    comboComponent combos names
      = ((combos.filter (comboMatches names)).map (fun c => c.severity)).sum := by
  rw [comboComponent, matching_combos]
  exact List.Perm.sum_eq
    (List.Perm.map (fun c => c.severity) (sortDesc_perm (combos.filter (comboMatches names))))

theorem baseWeightOf_nonneg (cat : List CatalogEntry)
    (hb : ∀ e ∈ cat, 0 ≤ e.baseWeight) (n : String) : 0 ≤ baseWeightOf cat n := by
  cases h : entryByName cat n with
  | none => simp [baseWeightOf, h]
  | some e =>
    simp only [baseWeightOf, h]
    exact hb e (List.mem_of_find?_eq_some h)

theorem baseComponent_mono (cat : List CatalogEntry)
    (hb : ∀ e ∈ cat, 0 ≤ e.baseWeight) {s t : Finset String} (hst : s ⊆ t) :
    baseComponent cat s ≤ baseComponent cat t :=
  Finset.sum_le_sum_of_subset_of_nonneg hst fun n _ _ => baseWeightOf_nonneg cat hb n

theorem pairKeyWeight_nonneg (key : String × String) : 0 ≤ pairKeyWeight key := by
  unfold pairKeyWeight
  split_ifs <;> norm_num

theorem categoryPairWeight_nonneg (a b : String) : 0 ≤ categoryPairWeight a b := by
  unfold categoryPairWeight
  split_ifs <;> apply pairKeyWeight_nonneg

theorem realizedCategoryPairs_mono (cat : List CatalogEntry) {s t : Finset String}
    (hst : s ⊆ t) : realizedCategoryPairs cat s ⊆ realizedCategoryPairs cat t :=
  Finset.biUnion_subset_biUnion_of_subset_left _
    (Finset.filter_subset_filter _ (Finset.product_subset_product hst hst))

theorem synergyComponent_mono (cat : List CatalogEntry) {s t : Finset String}
    (hst : s ⊆ t) : synergyComponent cat s ≤ synergyComponent cat t :=
  Finset.sum_le_sum_of_subset_of_nonneg
    (realizedCategoryPairs_mono cat hst)
    (fun p _ _ => categoryPairWeight_nonneg p.1 p.2)

theorem synergyComponent_single (cat : List CatalogEntry) (x : String) :
    synergyComponent cat {x} = 0 := by
  have hempty : ({x} ×ˢ ({x} : Finset String)).filter (fun q => q.1 ≠ q.2) = ∅ := by
    ext q
    simp only [Finset.mem_filter, Finset.mem_product, Finset.mem_singleton,
      Finset.not_mem_empty, iff_false]
    rintro ⟨⟨h1, h2⟩, hne⟩
    exact hne (h1.trans h2.symm)
  rw [synergyComponent, realizedCategoryPairs, hempty, Finset.biUnion_empty,
    Finset.sum_empty]

theorem comboComponent_mono (combos : List ComboEntry)
    (hc : ∀ c ∈ combos, 0 ≤ c.severity) {s t : Finset String} (hst : s ⊆ t) :
    comboComponent combos s ≤ comboComponent combos t := by
  rw [comboComponent_filter, comboComponent_filter]
  refine List.Sublist.sum_le_sum
    (List.Sublist.map _ (List.monotone_filter_right combos ?_)) ?_
  · intro c hcs
    have h1 : c.members ⊆ s := of_decide_eq_true hcs
    exact decide_eq_true (Finset.Subset.trans h1 hst)
  · intro a ha
    rcases List.mem_map.mp ha with ⟨c, hcmem, rfl⟩
    exact hc c (List.mem_filter.mp hcmem).1

theorem tryLens_some_name (cat : List CatalogEntry) (toks : List String) :
    ∀ m kn, tryLens cat toks m = some kn → ∃ e ∈ cat, e.name = kn.2 := by
  intro m
  induction m with
  | zero => intro kn h; exact absurd h (by simp [tryLens])
  | succ m ih =>
    intro kn h
    rw [tryLens] at h
    cases hl : lookupPhrase cat (phraseOf toks (m + 1)) with
    | some e =>
      rw [hl] at h
      cases h
      exact ⟨e, List.mem_of_find?_eq_some hl, rfl⟩
    | none =>
      rw [hl] at h
      exact ih kn h

theorem tryLens_none_first (cat : List CatalogEntry) (toks : List String) :
    ∀ m, tryLens cat toks (m + 1) = none → lookupPhrase cat (phraseOf toks 1) = none := by
  intro m
  induction m with
  | zero =>
    intro h
    rw [tryLens] at h
    cases hl : lookupPhrase cat (phraseOf toks 1) with
    | some e => rw [hl] at h; cases h
    | none => rfl
  | succ m ih =>
    intro h
    rw [tryLens] at h
    cases hl : lookupPhrase cat (phraseOf toks (m + 2)) with
    | some e => rw [hl] at h; cases h
    | none => rw [hl] at h; exact ih h

theorem extractAux_detected_mem (cat : List CatalogEntry) :
    ∀ fuel toks x, x ∈ (extractAux cat fuel toks).1 → ∃ e ∈ cat, e.name = x := by
  intro fuel
  induction fuel with
  | zero => intro toks x hx; simp [extractAux] at hx
  | succ fuel ih =>
    intro toks x hx
    cases toks with
    | nil => simp [extractAux] at hx
    | cons t rest =>
      rw [extractAux] at hx
      cases hfm : firstMatch cat (t :: rest) with
      | some kn =>
        rw [hfm] at hx
        simp only [List.mem_cons] at hx
        rcases hx with rfl | hx
        · exact tryLens_some_name cat (t :: rest) (t :: rest).length kn hfm
        · exact ih _ x hx
      | none =>
        rw [hfm] at hx
        by_cases hct : isConnector t = true
        · rw [if_pos hct] at hx
          exact ih rest x hx
        · rw [if_neg hct] at hx
          exact ih rest x hx

theorem extractAux_unknown_nolookup (cat : List CatalogEntry) :
    ∀ fuel toks x, x ∈ (extractAux cat fuel toks).2 → lookupPhrase cat x = none := by
  intro fuel
  induction fuel with
  | zero => intro toks x hx; simp [extractAux] at hx
  | succ fuel ih =>
    intro toks x hx
    cases toks with
    | nil => simp [extractAux] at hx
    | cons t rest =>
      rw [extractAux] at hx
      cases hfm : firstMatch cat (t :: rest) with
      | some kn =>
        rw [hfm] at hx
        exact ih _ x hx
      | none =>
        rw [hfm] at hx
        by_cases hct : isConnector t = true
        · rw [if_pos hct] at hx
          exact ih rest x hx
        · rw [if_neg hct] at hx
          simp only [List.mem_cons] at hx
          rcases hx with rfl | hx2
          · have h1 : lookupPhrase cat (phraseOf (x :: rest) 1) = none :=
              tryLens_none_first cat (x :: rest) rest.length hfm
            simpa [phraseOf, joinTokens] using h1
          · exact ih rest x hx2

theorem lookupPhrase_of_name (cat : List CatalogEntry) (e : CatalogEntry)
    (he : e ∈ cat) : lookupPhrase cat e.name ≠ none := by
  intro h
  rw [lookupPhrase, List.find?_eq_none] at h
  exact (h e he) (by simp [entryMatches])

/- ================================================================
   Part 5.  The claims
   ================================================================ -/

/-- Claim C1: `src/app.py` is not a syntactically valid Python module — the
logical lines are indentation-consistent up to and including line 221 (the
body of the module-level `if` opened at indentation 0 on line 220), but the
next statement, line 223 at indentation 12, is an unmatched deeper indent,
so loading the file raises an IndentationError before initialisation or any
triage call can occur. -/
theorem app_module_indentation_error :
    indentOk [0] false (appLogicalLines.take 83) = true
    ∧ (appLogicalLines.take 83).getLast? = some ⟨221, 4, false⟩
    ∧ indentOk [0] false (appLogicalLines.take 84) = false
    ∧ (appLogicalLines.take 84).getLast? = some ⟨223, 12, false⟩
    ∧ indentOk [0] false appLogicalLines = false := by decide

/-- Claim C2: for every invocation with non-empty text, the triage result is
a record carrying all of the keys the presentation layer reads
(`detected_drugs`, `unknown_drugs`, `drug_score`, `synergy_component`,
`tripsit_combo_component`, `context_score`, `total_score`, `branch`,
`interventions`, `alerts`, `referral`), and the referral value carries
`refer`, `priority`, `reason` and `suggested_service`. -/
theorem triage_result_shape (cat : List CatalogEntry) (combos : List ComboEntry)
    (text : String) (ctx : ContextRecord) (h : text ≠ "") :
    (∀ k ∈ requiredKeys,
        k ∈ ((triage_from_text_and_context cat combos text ctx).toDict.map Prod.fst))
    ∧ (∃ d, List.lookup "referral"
          ((triage_from_text_and_context cat combos text ctx).toDict)
          = some (JVal.dict d)
        ∧ d.map Prod.fst = ["refer", "priority", "reason", "suggested_service"]) := by
  constructor
  · intro k hk
    fin_cases hk <;> simp [TriageResult.toDict]
  · exact ⟨_, rfl, rfl⟩

theorem triage_result_shape_witness :
    ("heroin and alcohol" ≠ "")
    ∧ "referral" ∈ ((triage_from_text_and_context demoCatalog demoCombos
        "heroin and alcohol" defaultContext).toDict.map Prod.fst) :=
  ⟨by decide,
   (triage_result_shape demoCatalog demoCombos "heroin and alcohol" defaultContext
      (by decide)).1 "referral" (by decide)⟩

/-- Claim C3: for every invocation, the total score equals drug score plus
context score, the drug score equals base + synergy + combo, and each
subcomponent is reported individually in the result record. -/
theorem triage_score_additivity (cat : List CatalogEntry) (combos : List ComboEntry)
    (text : String) (ctx : ContextRecord) :
    (triage_from_text_and_context cat combos text ctx).total_score
        = (triage_from_text_and_context cat combos text ctx).drug_score
          + (triage_from_text_and_context cat combos text ctx).context_score
    ∧ (triage_from_text_and_context cat combos text ctx).drug_score
        = (triage_from_text_and_context cat combos text ctx).base_component
          + (triage_from_text_and_context cat combos text ctx).synergy_component
          + (triage_from_text_and_context cat combos text ctx).tripsit_combo_component
    ∧ List.lookup "base_component"
        ((triage_from_text_and_context cat combos text ctx).toDict)
        = some (JVal.q (triage_from_text_and_context cat combos text ctx).base_component)
    ∧ List.lookup "synergy_component"
        ((triage_from_text_and_context cat combos text ctx).toDict)
        = some (JVal.q (triage_from_text_and_context cat combos text ctx).synergy_component)
    ∧ List.lookup "tripsit_combo_component"
        ((triage_from_text_and_context cat combos text ctx).toDict)
        = some (JVal.q (triage_from_text_and_context cat combos text ctx).tripsit_combo_component) :=
  ⟨rfl, rfl, rfl, rfl, rfl⟩

/-- Claim C4: `matching_combos` returns exactly the combo entries whose full
member set is a subset of the recognized set, ordered by descending severity
weight with ties broken by definition order, and the combo component is the
sum of the severity weights of exactly those entries. -/
theorem matching_combos_char (combos : List ComboEntry) (names : Finset String) :
    (∀ c, c ∈ matching_combos combos names ↔ (c ∈ combos ∧ c.members ⊆ names))
    ∧ comboComponent combos names
        = ((combos.filter (comboMatches names)).map (fun c => c.severity)).sum
    ∧ (matching_combos combos names).Pairwise (fun a b => b.severity ≤ a.severity)
    ∧ (∀ w, (matching_combos combos names).filter (fun c => c.severity == w)
          = (combos.filter (comboMatches names)).filter (fun c => c.severity == w)) := by
  refine ⟨?_, comboComponent_filter combos names, sortDesc_sorted _, fun w => sortDesc_filter _ w⟩
  intro c
  rw [matching_combos, (sortDesc_perm _).mem_iff, List.mem_filter]
  simp [comboMatches]

theorem matching_combos_char_witness :
    comboComponent demoCombos {"heroin", "alcohol"}
      = ((demoCombos.filter (comboMatches {"heroin", "alcohol"})).map
          (fun c => c.severity)).sum :=
  (matching_combos_char demoCombos {"heroin", "alcohol"}).2.1

/-- Claim C5: with all weights non-negative, adding one more recognized
substance to the recognized set never decreases the base, synergy or combo
subcomponents, nor the drug score. -/
theorem drug_score_monotone (cat : List CatalogEntry) (combos : List ComboEntry)
    (hb : ∀ e ∈ cat, 0 ≤ e.baseWeight) (hc : ∀ c ∈ combos, 0 ≤ c.severity)
    (names : Finset String) (x : String) :
    baseComponent cat names ≤ baseComponent cat (insert x names)
    ∧ synergyComponent cat names ≤ synergyComponent cat (insert x names)
    ∧ comboComponent combos names ≤ comboComponent combos (insert x names)
    ∧ drugScore cat combos names ≤ drugScore cat combos (insert x names) := by
  have hsub := Finset.subset_insert x names
  refine ⟨baseComponent_mono cat hb hsub, synergyComponent_mono cat hsub,
    comboComponent_mono combos hc hsub, ?_⟩
  exact add_le_add (add_le_add (baseComponent_mono cat hb hsub)
    (synergyComponent_mono cat hsub)) (comboComponent_mono combos hc hsub)

theorem drug_score_monotone_witness :
    drugScore demoCatalog demoCombos {"heroin"}
      ≤ drugScore demoCatalog demoCombos (insert "alcohol" {"heroin"}) :=
  (drug_score_monotone demoCatalog demoCombos (by decide) (by decide)
    {"heroin"} "alcohol").2.2.2

/-- Claim C6: for every text input, the detected-drugs list and the
unknown-drugs list of the triage result are disjoint, and each is free of
duplicates. -/
theorem detected_unknown_disjoint (cat : List CatalogEntry) (combos : List ComboEntry)
    (text : String) (ctx : ContextRecord) :
    (∀ a ∈ (triage_from_text_and_context cat combos text ctx).detected_drugs,
        a ∉ (triage_from_text_and_context cat combos text ctx).unknown_drugs)
    ∧ (triage_from_text_and_context cat combos text ctx).detected_drugs.Nodup
    ∧ (triage_from_text_and_context cat combos text ctx).unknown_drugs.Nodup := by
  refine ⟨?_, ?_, ?_⟩
  · intro a ha hau
    rw [triage_detected_eq, extract_substances_fst, List.mem_dedup] at ha
    rw [triage_unknown_eq, extract_substances_snd, List.mem_dedup] at hau
    rcases extractAux_detected_mem cat _ _ a ha with ⟨e, he, rfl⟩
    exact lookupPhrase_of_name cat e he (extractAux_unknown_nolookup cat _ _ e.name hau)
  · rw [triage_detected_eq, extract_substances_fst]
    exact List.nodup_dedup _
  · rw [triage_unknown_eq, extract_substances_snd]
    exact List.nodup_dedup _

theorem detected_unknown_disjoint_witness :
    (triage_from_text_and_context demoCatalog demoCombos "heroin and xyzstuff"
        defaultContext).detected_drugs.Nodup :=
  (detected_unknown_disjoint demoCatalog demoCombos "heroin and xyzstuff"
    defaultContext).2.1

/-- Claim C7: empty input text yields a normal empty-result triage — both
the detected and the unknown substance lists are empty — and, the engine
being a total function, no error is raised. -/
theorem empty_text_triage (cat : List CatalogEntry) (combos : List ComboEntry)
    (ctx : ContextRecord) :
    (triage_from_text_and_context cat combos "" ctx).detected_drugs = []
    ∧ (triage_from_text_and_context cat combos "" ctx).unknown_drugs = [] :=
  ⟨rfl, rfl⟩

/-- Claim C8: initialisation runs to completion exactly once at process
start before any scoring call — in every successful run the event trace
holds exactly one initialisation event, it comes first, and a triage call
only ever follows it — and a missing or malformed configuration source
aborts the run, so no triage call can proceed. -/
theorem init_gate_behaviour :
    (∀ b text ctx, runApp ConfigSource.missing b text ctx
        = Except.error "ConfigurationError: source missing")
    ∧ (∀ b text ctx, runApp ConfigSource.malformed b text ctx
        = Except.error "ConfigurationError: source malformed")
    ∧ (∀ src b text ctx tr res, runApp src b text ctx = Except.ok (tr, res) →
        tr.count AppEvent.engineInit = 1
        ∧ tr.head? = some AppEvent.engineInit
        ∧ (∀ r, res = some r → tr = [AppEvent.engineInit, AppEvent.triageCall])) := by
  refine ⟨fun b text ctx => rfl, fun b text ctx => rfl, ?_⟩
  intro src b text ctx tr res h
  cases src with
  | missing => exact absurd h (by simp [runApp, loadConfig])
  | malformed => exact absurd h (by simp [runApp, loadConfig])
  | ok cat combos =>
    rw [runApp] at h
    simp only [loadConfig] at h
    by_cases hb : (b && textHasContent text) = true
    · rw [if_pos hb] at h
      rcases h with ⟨⟩ | h
      exact ⟨rfl, rfl, fun r hr => rfl⟩
    · rw [if_neg hb] at h
      rcases h with ⟨⟩ | h
      exact ⟨rfl, rfl, fun r hr => by cases hr⟩

theorem init_gate_behaviour_witness :
    [AppEvent.engineInit, AppEvent.triageCall].count AppEvent.engineInit = 1
    ∧ [AppEvent.engineInit, AppEvent.triageCall].head? = some AppEvent.engineInit
    ∧ (∀ r, some (triage_from_text_and_context demoCatalog demoCombos "heroin"
          defaultContext) = some r
        → [AppEvent.engineInit, AppEvent.triageCall]
            = [AppEvent.engineInit, AppEvent.triageCall]) :=
  init_gate_behaviour.2.2 (ConfigSource.ok demoCatalog demoCombos) true "heroin"
    defaultContext [AppEvent.engineInit, AppEvent.triageCall]
    (some (triage_from_text_and_context demoCatalog demoCombos "heroin" defaultContext))
    rfl

/-- Claim C9: in the summary-text branch of the referral output section the
variable `ctx_bits` is read without ever being assigned in that branch (it
is assigned only in the email-template branch), so — were the module
loadable — selecting the summary output for a referred result raises a
NameError, while the email-template branch always succeeds. -/
theorem ctx_bits_unbound_name_error (r : TriageResult) (ctxd : ContextRecord) :
    referralSection RefMode.summaryText r ctxd none
      = Except.error "NameError: name ctx_bits is not defined"
    ∧ (∀ scope, (referralSection RefMode.emailTemplate r ctxd scope).isOk = true) :=
  ⟨rfl, fun scope => rfl⟩

/-- Claim C10: in the context record built by the form, an age entered as 0
(the widget's minimum and default) is stored as None — indistinguishable
from no age recorded — the sex field is None for "Prefer not to record" and
otherwise the lowercased selection, and all five vulnerability flags default
to False. -/
theorem context_dict_construction :
    (∀ w : WidgetState, w.age = 0 → (buildContext w).age = none)
    ∧ (∀ w : WidgetState, w.sex = "Prefer not to record" → (buildContext w).sex = none)
    ∧ (∀ w : WidgetState, w.sex = "Female" → (buildContext w).sex = some "female")
    ∧ (∀ w : WidgetState, w.sex = "Male" → (buildContext w).sex = some "male")
    ∧ (∀ w : WidgetState, w.sex = "Intersex / other"
        → (buildContext w).sex = some "intersex / other")
    ∧ (buildContext defaultWidgets).age = none
    ∧ (buildContext defaultWidgets).sex = none
    ∧ (buildContext defaultWidgets).opioid_dependent = false
    ∧ (buildContext defaultWidgets).homeless = false
    ∧ (buildContext defaultWidgets).recent_overdose = false
    ∧ (buildContext defaultWidgets).severe_mental_health = false
    ∧ (buildContext defaultWidgets).polysubstance_history = false := by
  refine ⟨?_, ?_, ?_, ?_, ?_, by decide, by decide, rfl, rfl, rfl, rfl, rfl⟩
  all_goals intro w h
  all_goals simp only [buildContext, h]
  all_goals decide

theorem context_dict_construction_witness :
    (buildContext defaultWidgets).age = none
    ∧ (buildContext defaultWidgets).sex = none :=
  ⟨context_dict_construction.1 defaultWidgets rfl,
   context_dict_construction.2.1 defaultWidgets rfl⟩

end Triage
